import Mathlib

/-!
Verification of the record validation, normalization and anomaly-classification
pipeline of the renewable-energy data repository.

Shallow embedding conventions:
* Python numbers (`float(...)` results) are modelled as rationals `ℚ`;
  `Decimal(str(x))` is value-preserving in this model, so normalized records
  store the parsed rationals directly.
* An untrusted raw record (a JSON mapping) is modelled as a `RawRecord` whose
  fields are `Option`-valued: `none` means the key is absent from the mapping.
* A value on which Python `float(...)` would raise is the constructor
  `RawValue.nonNumeric`; a value it converts to `q` is `RawValue.num q`.
* Raising an exception is modelled as returning `none` / `Except.error`;
  the ambient clock (`datetime.utcnow()`) is threaded as a `now : String`
  argument.
-/

set_option autoImplicit false

namespace EnergyPipeline

/-- A raw field value as seen by the ingestion code: either something Python
`float(...)` converts to the rational `q`, or something it raises on. -/
inductive RawValue where
  | num : ℚ → RawValue
  | nonNumeric : RawValue
deriving DecidableEq

/-- `float(v)`: `some q` when conversion succeeds, `none` when it raises. -/
def RawValue.toFloat : RawValue → Option ℚ
  | .num q => some q
  | .nonNumeric => none

/-- An untrusted input record (`record` in the Python sources); `none` models
an absent key. -/
structure RawRecord where
  site_id : Option String
  timestamp : Option String
  energy_generated_kwh : Option RawValue
  energy_consumed_kwh : Option RawValue
deriving DecidableEq

/-- The ordered list `required_fields` from
`process_energy_record_with_validation` in `error_handling.py`. -/
def required_fields : List String :=
  ["site_id", "timestamp", "energy_generated_kwh", "energy_consumed_kwh"]

/-- Python `field in record` for the four known keys. -/
def RawRecord.hasField (r : RawRecord) (f : String) : Bool :=
  if f = "site_id" then r.site_id.isSome
  else if f = "timestamp" then r.timestamp.isSome
  else if f = "energy_generated_kwh" then r.energy_generated_kwh.isSome
  else if f = "energy_consumed_kwh" then r.energy_consumed_kwh.isSome
  else false

/-- The `for field in required_fields: if field not in record` loop:
first missing required field, in the fixed order of `required_fields`. -/
def first_missing_field (r : RawRecord) : Option String :=
  required_fields.find? (fun f => ! r.hasField f)

/-- A processed record as built by `process_energy_record` /
`process_energy_record_with_validation` (all eight keys of the Python dict). -/
structure NormalizedRecord where
  site_id : String
  timestamp : String
  energy_generated_kwh : ℚ
  energy_consumed_kwh : ℚ
  net_energy_kwh : ℚ
  anomaly : Bool
  anomaly_reasons : List String
  processed_at : String
deriving DecidableEq

/-- The record-construction block shared verbatim by `lambda_processor.py`,
`anomaly_alerting.py` and `error_handling.py`: compute `net_energy`, run the
two sequential anomaly checks (generation first, then consumption), and build
the dict with all eight keys.  The pair `s1`/`s2` threads the sequential
updates of the Python locals `anomaly` and `anomaly_reasons`. -/
def mk_processed_record (now site_id timestamp : String)
    (energy_generated energy_consumed : ℚ) : NormalizedRecord :=
  let net_energy := energy_generated - energy_consumed
  let anomaly := false
  let anomaly_reasons : List String := []
  let s1 : Bool × List String :=
    if energy_generated < 0 then (true, anomaly_reasons ++ ["negative_generation"])
    else (anomaly, anomaly_reasons)
  let s2 : Bool × List String :=
    if energy_consumed < 0 then (true, s1.2 ++ ["negative_consumption"])
    else s1
  { site_id := site_id
    timestamp := timestamp
    energy_generated_kwh := energy_generated
    energy_consumed_kwh := energy_consumed
    net_energy_kwh := net_energy
    anomaly := s2.1
    anomaly_reasons := s2.2
    processed_at := now }

/-- `process_energy_record` from `lambda_processor.py` (the identical copy
lives in `anomaly_alerting.py`): key lookups and `float(...)` conversions run
inside a `try`; any failure is caught and the function returns `None`. -/
def process_energy_record (now : String) (record : RawRecord) :
    Option NormalizedRecord :=
  match record.site_id, record.timestamp,
      record.energy_generated_kwh.bind RawValue.toFloat,
      record.energy_consumed_kwh.bind RawValue.toFloat with
  | some site_id, some timestamp, some energy_generated, some energy_consumed =>
      some (mk_processed_record now site_id timestamp energy_generated energy_consumed)
  | _, _, _, _ => none

/-- The error taxonomy `ErrorType` from `error_handling.py`. -/
inductive ErrorType where
  | DATA_VALIDATION
  | AWS_SERVICE
  | NETWORK
  | PROCESSING
  | AUTHENTICATION
  | STORAGE
  | API
deriving DecidableEq

/-- The `ValueError`s raised by `process_energy_record_with_validation`,
classified by which check failed; `missingField`, `nonNumericField` and
`outOfRange` carry the offending field name (and, for the range check, the
offending value, exactly as the source message
`f"Energy ... out of valid range: {value}"` does). -/
inductive ValidationFailure where
  | missingField : String → ValidationFailure
  | nonNumericField : String → ValidationFailure
  | outOfRange : String → ℚ → ValidationFailure
deriving DecidableEq

/-- Modelled from the spec: §4.1's Validator contract classifies every
validation failure (a bare `ValueError` in the source, which attaches no
taxonomy tag itself) as a `DATA_VALIDATION` failure. -/
def ValidationFailure.error_type (_ : ValidationFailure) : ErrorType :=
  ErrorType.DATA_VALIDATION

/-- `process_energy_record_with_validation` from `error_handling.py`:
required-field loop (fail-fast, in `required_fields` order), `float(...)`
parses, the two range checks `< -1000 or > 10000`, then the shared
record-construction block. -/
def process_energy_record_with_validation (now : String) (record : RawRecord) :
    Except ValidationFailure NormalizedRecord :=
  match record.site_id, record.timestamp,
      record.energy_generated_kwh, record.energy_consumed_kwh with
  | none, _, _, _ => .error (.missingField "site_id")
  | some _, none, _, _ => .error (.missingField "timestamp")
  | some _, some _, none, _ => .error (.missingField "energy_generated_kwh")
  | some _, some _, some _, none => .error (.missingField "energy_consumed_kwh")
  | some site_id, some timestamp, some gv, some cv =>
    match gv.toFloat with
    | none => .error (.nonNumericField "energy_generated_kwh")
    | some energy_generated =>
      match cv.toFloat with
      | none => .error (.nonNumericField "energy_consumed_kwh")
      | some energy_consumed =>
        if energy_generated < -1000 ∨ energy_generated > 10000 then
          .error (.outOfRange "energy_generated_kwh" energy_generated)
        else if energy_consumed < -1000 ∨ energy_consumed > 10000 then
          .error (.outOfRange "energy_consumed_kwh" energy_consumed)
        else
          .ok (mk_processed_record now site_id timestamp energy_generated energy_consumed)

/-- The severity levels `ErrorSeverity` from `error_handling.py`. -/
inductive ErrorSeverity where
  | LOW
  | MEDIUM
  | HIGH
  | CRITICAL
deriving DecidableEq

/-- Observable trace of one `PipelineErrorHandler.retry_operation` call:
the returned value (`none` when the final exception is re-raised), how many
times `operation_func` was invoked, the `time.sleep` durations in order, and
the severities of the `log_error` calls in order. -/
structure RetryTrace (α : Type) where
  result : Option α
  attempts : ℕ
  sleeps : List ℚ
  logs : List ErrorSeverity
deriving DecidableEq

/-- The body of `retry_operation`'s `for attempt in range(max_retries + 1)`
loop, started at loop index `attempt`; `op k` is the outcome of invoking
`operation_func` on the k-th iteration (`none` = it raised).  `fuel` bounds
the remaining iterations and is `max_retries + 1 - attempt` at every call. -/
def retry_from {α : Type} (op : ℕ → Option α) (max_retries : ℕ) (backoff : ℚ) :
    ℕ → ℕ → RetryTrace α
  | _, 0 => ⟨none, 0, [], []⟩
  | attempt, fuel + 1 =>
    match op attempt with
    | some r => ⟨some r, 1, [], []⟩
    | none =>
      if attempt = max_retries then
        ⟨none, 1, [], [ErrorSeverity.HIGH]⟩
      else
        let wait_time := backoff ^ attempt
        let rest := retry_from op max_retries backoff (attempt + 1) fuel
        ⟨rest.result, 1 + rest.attempts, wait_time :: rest.sleeps,
          ErrorSeverity.MEDIUM :: rest.logs⟩

/-- `PipelineErrorHandler.retry_operation` from `error_handling.py`, given a
resolved config `(max_retries, backoff)`. -/
def retry_operation {α : Type} (op : ℕ → Option α) (max_retries : ℕ)
    (backoff : ℚ) : RetryTrace α :=
  retry_from op max_retries backoff 0 (max_retries + 1)

/-- An operation that raises on every invocation. -/
def always_failing_op : ℕ → Option Unit := fun _ => none

/-- Whether `process_energy_record_with_validation` succeeds on a record
(the per-record `try` body in `enhanced_lambda_handler_with_error_handling`
completes without an exception). -/
def record_validates (now : String) (r : RawRecord) : Bool :=
  match process_energy_record_with_validation now r with
  | .ok _ => true
  | .error _ => false

/-- The `for i, record in enumerate(records)` loop of
`enhanced_lambda_handler_with_error_handling`: each record is processed inside
its own `try`; success increments `processed_count`, an exception increments
`error_count` and the loop `continue`s.  The DynamoDB write is modelled as
succeeding (the claim under study concerns validation/processing failures). -/
def process_records (now : String) (records : List RawRecord) : ℕ × ℕ :=
  records.foldl
    (fun acc r =>
      match process_energy_record_with_validation now r with
      | .ok _ => (acc.1 + 1, acc.2)
      | .error _ => (acc.1, acc.2 + 1))
    (0, 0)

/-- The input dict of `AnomalyAlertingSystem.send_anomaly_alert`, read only
through `.get(key, default)`, so every field is optional. -/
structure AlertRecord where
  site_id : Option String
  timestamp : Option String
  energy_generated_kwh : Option RawValue
  energy_consumed_kwh : Option RawValue
  anomaly_reasons : Option (List String)
deriving DecidableEq

/-- The anomaly-type label derived from `anomaly_reasons` in
`send_anomaly_alert`. -/
def anomaly_type_label (reasons : List String) : String :=
  if reasons.contains "negative_generation" then "Negative Energy Generation"
  else if reasons.contains "negative_consumption" then "Negative Energy Consumption"
  else "Unknown"

/-- `AnomalyAlertingSystem.send_anomaly_alert`: the whole body runs in a
`try`; on any exception (the `float(...)` conversions in the message body, or
`sns_client.publish` — modelled by `publish`, where `some id` is a successful
publish returning `MessageId = id` and `none` is a transport failure) the
`except` branch returns `None`; otherwise the `MessageId` is returned. -/
def send_anomaly_alert (publish : Option String) (record : AlertRecord) :
    Option String :=
  let energy_generated := record.energy_generated_kwh.getD (RawValue.num 0)
  let energy_consumed := record.energy_consumed_kwh.getD (RawValue.num 0)
  match energy_generated.toFloat, energy_consumed.toFloat with
  | some _, some _ =>
    match publish with
    | some message_id => some message_id
    | none => none
  | _, _ => none

/-- `anomaly_rate` as computed in
`AnomalyAlertingSystem.send_daily_summary_alert`. -/
def anomaly_rate (total_anomalies total_records : ℕ) : ℚ :=
  if total_records > 0 then (total_anomalies : ℚ) / (total_records : ℚ) * 100
  else 0

/-- The three system-health labels of the daily summary message (the source
strings are emoji-prefixed: green "Excellent", yellow "Attention Needed",
red "Critical"). -/
inductive HealthLabel where
  | Excellent
  | AttentionNeeded
  | Critical
deriving DecidableEq

/-- The conditional expression
`'Excellent' if anomaly_rate < 1 else 'Attention Needed' if anomaly_rate < 5
else 'Critical'` from `send_daily_summary_alert`. -/
def system_health (rate : ℚ) : HealthLabel :=
  if rate < 1 then HealthLabel.Excellent
  else if rate < 5 then HealthLabel.AttentionNeeded
  else HealthLabel.Critical

/-! ### Basic lemmas about the shared record-construction block -/

@[simp] lemma mk_site_id (now sid ts : String) (g c : ℚ) :
    (mk_processed_record now sid ts g c).site_id = sid := rfl

@[simp] lemma mk_timestamp (now sid ts : String) (g c : ℚ) :
    (mk_processed_record now sid ts g c).timestamp = ts := rfl

@[simp] lemma mk_energy_generated (now sid ts : String) (g c : ℚ) :
    (mk_processed_record now sid ts g c).energy_generated_kwh = g := rfl

@[simp] lemma mk_energy_consumed (now sid ts : String) (g c : ℚ) :
    (mk_processed_record now sid ts g c).energy_consumed_kwh = c := rfl

@[simp] lemma mk_net_energy (now sid ts : String) (g c : ℚ) :
    (mk_processed_record now sid ts g c).net_energy_kwh = g - c := rfl

@[simp] lemma mk_processed_at (now sid ts : String) (g c : ℚ) :
    (mk_processed_record now sid ts g c).processed_at = now := rfl

lemma mk_anomaly_reasons_eq (now sid ts : String) (g c : ℚ) :
    (mk_processed_record now sid ts g c).anomaly_reasons =
      (if g < 0 then ["negative_generation"] else []) ++
      (if c < 0 then ["negative_consumption"] else []) := by
  by_cases hg : g < 0 <;> by_cases hc : c < 0 <;>
    simp [mk_processed_record, hg, hc]

lemma mk_anomaly_eq (now sid ts : String) (g c : ℚ) :
    (mk_processed_record now sid ts g c).anomaly = (decide (g < 0) || decide (c < 0)) := by
  by_cases hg : g < 0 <;> by_cases hc : c < 0 <;>
    simp [mk_processed_record, hg, hc]

/-- Every record returned by `process_energy_record_with_validation` is the
shared construction applied to some field values. -/
lemma validate_ok_inv (now : String) (r : RawRecord) (nr : NormalizedRecord)
    (h : process_energy_record_with_validation now r = Except.ok nr) :
    ∃ sid ts g c, nr = mk_processed_record now sid ts g c := by
  rcases r with ⟨s, t, gv, cv⟩
  cases s with
  | none => simp [process_energy_record_with_validation] at h
  | some sv =>
  cases t with
  | none => simp [process_energy_record_with_validation] at h
  | some tv =>
  cases gv with
  | none => simp [process_energy_record_with_validation] at h
  | some gval =>
  cases cv with
  | none => simp [process_energy_record_with_validation] at h
  | some cval =>
  cases hgf : gval.toFloat with
  | none => simp [process_energy_record_with_validation, hgf] at h
  | some g =>
  cases hcf : cval.toFloat with
  | none => simp [process_energy_record_with_validation, hgf, hcf] at h
  | some c =>
  by_cases h1 : g < -1000 ∨ g > 10000
  · simp [process_energy_record_with_validation, hgf, hcf, h1] at h
  by_cases h2 : c < -1000 ∨ c > 10000
  · simp [process_energy_record_with_validation, hgf, hcf, h1, h2] at h
  · simp [process_energy_record_with_validation, hgf, hcf, h1, h2] at h
    exact ⟨sv, tv, g, c, h.symm⟩

/-- Every record returned by the basic `process_energy_record` is the shared
construction applied to some field values. -/
lemma process_some_inv (now : String) (r : RawRecord) (nr : NormalizedRecord)
    (h : process_energy_record now r = some nr) :
    ∃ sid ts g c, nr = mk_processed_record now sid ts g c := by
  rcases r with ⟨s, t, gv, cv⟩
  cases s with
  | none => simp [process_energy_record] at h
  | some sv =>
  cases t with
  | none => simp [process_energy_record] at h
  | some tv =>
  cases hgf : (Option.bind gv RawValue.toFloat) with
  | none => simp [process_energy_record, hgf] at h
  | some g =>
  cases hcf : (Option.bind cv RawValue.toFloat) with
  | none => simp [process_energy_record, hgf, hcf] at h
  | some c =>
  simp [process_energy_record, hgf, hcf] at h
  exact ⟨sv, tv, g, c, h.symm⟩

/-- The anomaly-classification facts, proved once for the shared
record-construction block. -/
lemma mk_anomaly_props (now sid ts : String) (g c : ℚ) :
    ((mk_processed_record now sid ts g c).anomaly = true ↔ (g < 0 ∨ c < 0)) ∧
    ("negative_generation" ∈ (mk_processed_record now sid ts g c).anomaly_reasons ↔ g < 0) ∧
    ("negative_consumption" ∈ (mk_processed_record now sid ts g c).anomaly_reasons ↔ c < 0) ∧
    (g < 0 → c < 0 →
      (mk_processed_record now sid ts g c).anomaly_reasons =
        ["negative_generation", "negative_consumption"]) ∧
    ((mk_processed_record now sid ts g c).anomaly = true ↔
      0 < (mk_processed_record now sid ts g c).anomaly_reasons.length) := by
  by_cases hg : g < 0 <;> by_cases hc : c < 0 <;>
    simp [mk_processed_record, hg, hc]

/-! ### Claim theorems: validator and normalizer -/

/-- C1: for every raw record accepted by either validator variant, the
produced record's anomaly flag is true iff `energy_generated_kwh < 0` or
`energy_consumed_kwh < 0`; `anomaly_reasons` contains `negative_generation`
iff generation is negative and `negative_consumption` iff consumption is
negative, with `negative_generation` preceding `negative_consumption` when
both are present; and `anomaly` holds iff `anomaly_reasons` is nonempty. -/
theorem anomaly_classification (now : String) (r : RawRecord) (nr : NormalizedRecord)
    (h : process_energy_record_with_validation now r = Except.ok nr ∨
         process_energy_record now r = some nr) :
    (nr.anomaly = true ↔ (nr.energy_generated_kwh < 0 ∨ nr.energy_consumed_kwh < 0)) ∧
    ("negative_generation" ∈ nr.anomaly_reasons ↔ nr.energy_generated_kwh < 0) ∧
    ("negative_consumption" ∈ nr.anomaly_reasons ↔ nr.energy_consumed_kwh < 0) ∧
    (nr.energy_generated_kwh < 0 → nr.energy_consumed_kwh < 0 →
      nr.anomaly_reasons = ["negative_generation", "negative_consumption"]) ∧
    (nr.anomaly = true ↔ 0 < nr.anomaly_reasons.length) := by
  have hmk : ∃ sid ts g c, nr = mk_processed_record now sid ts g c := by
    rcases h with h | h
    · exact validate_ok_inv now r nr h
    · exact process_some_inv now r nr h
  obtain ⟨sid, ts, g, c, rfl⟩ := hmk
  simpa using mk_anomaly_props now sid ts g c

/-- C2: each energy field must lie in the inclusive interval
`[-1000, 10000]`; the generation check runs first, a value outside the
interval yields a validation failure (classified `DATA_VALIDATION`) carrying
the offending field name and value, and any pair of in-range values passes
the range checks and produces the normalized record. -/
theorem range_check_inclusive (now sid ts : String) (gv cv : RawValue)
    (r : RawRecord) (g c : ℚ)
    (hr : r = ⟨some sid, some ts, some gv, some cv⟩)
    (hg : gv.toFloat = some g) (hc : cv.toFloat = some c) :
    ((g < -1000 ∨ g > 10000) →
      process_energy_record_with_validation now r =
        Except.error (ValidationFailure.outOfRange "energy_generated_kwh" g)) ∧
    ((-1000 ≤ g ∧ g ≤ 10000) → (c < -1000 ∨ c > 10000) →
      process_energy_record_with_validation now r =
        Except.error (ValidationFailure.outOfRange "energy_consumed_kwh" c)) ∧
    ((-1000 ≤ g ∧ g ≤ 10000) → (-1000 ≤ c ∧ c ≤ 10000) →
      process_energy_record_with_validation now r =
        Except.ok (mk_processed_record now sid ts g c)) ∧
    (∀ f v, (ValidationFailure.outOfRange f v).error_type = ErrorType.DATA_VALIDATION) := by
  subst hr
  refine ⟨?_, ?_, ?_, fun f v => rfl⟩
  · intro hout
    simp [process_energy_record_with_validation, hg, hc, hout]
  · intro hgin hcout
    have h1 : ¬(g < -1000 ∨ g > 10000) := by
      push_neg
      exact hgin
    simp [process_energy_record_with_validation, hg, hc, h1, hcout]
  · intro hgin hcin
    have h1 : ¬(g < -1000 ∨ g > 10000) := by
      push_neg
      exact hgin
    have h2 : ¬(c < -1000 ∨ c > 10000) := by
      push_neg
      exact hcin
    simp [process_energy_record_with_validation, hg, hc, h1, h2]

/-- C6: for a raw record whose two energy fields parse as numbers in
`[-1000, 10000]`, both validator variants produce the record whose
`net_energy_kwh` is exactly `energy_generated_kwh - energy_consumed_kwh`
(exact in this decimal model, hence within any fixed-precision rounding),
with both energies stored verbatim. -/
theorem net_energy_exact (now sid ts : String) (gv cv : RawValue)
    (r : RawRecord) (g c : ℚ)
    (hr : r = ⟨some sid, some ts, some gv, some cv⟩)
    (hg : gv.toFloat = some g) (hc : cv.toFloat = some c)
    (hg1 : -1000 ≤ g) (hg2 : g ≤ 10000) (hc1 : -1000 ≤ c) (hc2 : c ≤ 10000) :
    process_energy_record_with_validation now r =
      Except.ok (mk_processed_record now sid ts g c) ∧
    process_energy_record now r = some (mk_processed_record now sid ts g c) ∧
    (mk_processed_record now sid ts g c).net_energy_kwh = g - c ∧
    (mk_processed_record now sid ts g c).energy_generated_kwh = g ∧
    (mk_processed_record now sid ts g c).energy_consumed_kwh = c := by
  subst hr
  have h1 : ¬(g < -1000 ∨ g > 10000) := by
    push_neg
    exact ⟨hg1, hg2⟩
  have h2 : ¬(c < -1000 ∨ c > 10000) := by
    push_neg
    exact ⟨hc1, hc2⟩
  refine ⟨?_, ?_, rfl, rfl, rfl⟩
  · simp [process_energy_record_with_validation, hg, hc, h1, h2]
  · simp [process_energy_record, hg, hc]

/-- `first_missing_field` evaluated by cases on field presence. -/
lemma first_missing_field_cases (r : RawRecord) :
    first_missing_field r =
      if r.site_id.isNone then some "site_id"
      else if r.timestamp.isNone then some "timestamp"
      else if r.energy_generated_kwh.isNone then some "energy_generated_kwh"
      else if r.energy_consumed_kwh.isNone then some "energy_consumed_kwh"
      else none := by
  rcases r with ⟨s, t, gv, cv⟩
  cases s <;> cases t <;> cases gv <;> cases cv <;> rfl

/-- C7: a record with a missing required field fails with a validation
failure (classified `DATA_VALIDATION`) naming the first missing field in the
fixed order of `required_fields`; only that first field is reported. -/
theorem first_missing_field_reported (now : String) (r : RawRecord) (f : String)
    (h : first_missing_field r = some f) :
    process_energy_record_with_validation now r =
      Except.error (ValidationFailure.missingField f) ∧
    (ValidationFailure.missingField f).error_type = ErrorType.DATA_VALIDATION := by
  rw [first_missing_field_cases] at h
  refine ⟨?_, rfl⟩
  rcases r with ⟨s, t, gv, cv⟩
  cases s with
  | none =>
    simp at h
    subst h
    rfl
  | some sv =>
  cases t with
  | none =>
    simp at h
    subst h
    rfl
  | some tv =>
  cases gv with
  | none =>
    simp at h
    subst h
    rfl
  | some gval =>
  cases cv with
  | none =>
    simp at h
    subst h
    rfl
  | some cval => simp at h

/-- C10: the basic validator is total — on any input whatsoever it either
returns `none` (the caught-exception path) or the complete normalized record
built by `mk_processed_record` from the present, numeric field values (all
eight fields populated, never a partial record). -/
theorem process_energy_record_total (now : String) (r : RawRecord) :
    process_energy_record now r = none ∨
    ∃ sid ts g c,
      r.site_id = some sid ∧ r.timestamp = some ts ∧
      r.energy_generated_kwh.bind RawValue.toFloat = some g ∧
      r.energy_consumed_kwh.bind RawValue.toFloat = some c ∧
      process_energy_record now r = some (mk_processed_record now sid ts g c) := by
  rcases r with ⟨s, t, gv, cv⟩
  cases s with
  | none => exact Or.inl (by simp [process_energy_record])
  | some sv =>
  cases t with
  | none => exact Or.inl (by simp [process_energy_record])
  | some tv =>
  cases hgf : (Option.bind gv RawValue.toFloat) with
  | none => exact Or.inl (by simp [process_energy_record, hgf])
  | some g =>
  cases hcf : (Option.bind cv RawValue.toFloat) with
  | none => exact Or.inl (by simp [process_energy_record, hgf, hcf])
  | some c =>
  exact Or.inr ⟨sv, tv, g, c, rfl, rfl, rfl, rfl, by simp [process_energy_record, hgf, hcf]⟩

/-! ### Retry wrapper lemmas -/

/-- The i-th `time.sleep` of a retry run (0-indexed) always waits
`backoff ^ (attempt₀ + i)` where `attempt₀` is the loop index the run was
started at. -/
lemma retry_from_sleeps {α : Type} (op : ℕ → Option α) (m : ℕ) (b : ℚ) :
    ∀ (fuel a i : ℕ) (x : ℚ),
      (retry_from op m b a fuel).sleeps[i]? = some x → x = b ^ (a + i) := by
  intro fuel
  induction fuel with
  | zero =>
    intro a i x h
    simp [retry_from] at h
  | succ n ih =>
    intro a i x h
    cases hop : op a with
    | some v => simp [retry_from, hop] at h
    | none =>
      by_cases ha : a = m
      · subst ha
        simp [retry_from, hop] at h
      · simp only [retry_from, hop, ha, if_false, ite_false] at h
        cases i with
        | zero =>
          simp at h
          rw [Nat.add_zero]
          exact h.symm
        | succ j =>
          simp at h
          have hx := ih (a + 1) j x h
          rw [hx]
          congr 1
          omega

/-- On an operation that fails every time, the loop starting at index `a`
makes `m + 1 - a` further attempts, logs `MEDIUM` for each non-final failure
and `HIGH` for the final one, and re-raises (result `none`). -/
lemma retry_from_always_fails {α : Type} (op : ℕ → Option α)
    (hop : ∀ j, op j = none) (m : ℕ) (b : ℚ) :
    ∀ (fuel a : ℕ), m < a + fuel → a ≤ m →
      (retry_from op m b a fuel).result = none ∧
      (retry_from op m b a fuel).attempts = m + 1 - a ∧
      (retry_from op m b a fuel).logs =
        List.replicate (m - a) ErrorSeverity.MEDIUM ++ [ErrorSeverity.HIGH] := by
  intro fuel
  induction fuel with
  | zero =>
    intro a h1 h2
    omega
  | succ n ih =>
    intro a h1 h2
    by_cases ha : a = m
    · subst ha
      refine ⟨?_, ?_, ?_⟩ <;> simp [retry_from, hop a]
    · obtain ⟨ih1, ih2, ih3⟩ := ih (a + 1) (by omega) (by omega)
      refine ⟨?_, ?_, ?_⟩
      · simp [retry_from, hop a, ha, ih1]
      · simp only [retry_from, hop a, ha, if_false, ite_false]
        simp only [ih2]
        omega
      · simp only [retry_from, hop a, ha, if_false, ite_false]
        simp only [ih3]
        have hma : m - a = (m - (a + 1)) + 1 := by omega
        rw [hma, List.replicate_succ]
        simp

/-! ### Claim theorems: retry wrapper -/

/-- C3 (amended): the delay slept before retry attempt `k` (attempts
0-indexed, `k ≥ 1`; the (k-1)-th sleep of the run) is `backoff ^ (k - 1)`,
not `backoff ^ k`: with backoff 2 the successive delays are 1, 2, 4, … for
k = 1, 2, 3. -/
theorem retry_backoff_delay {α : Type} (op : ℕ → Option α) (m k : ℕ)
    (b d : ℚ) (hk : 1 ≤ k)
    (h : (retry_operation op m b).sleeps[k - 1]? = some d) :
    d = b ^ (k - 1) := by
  have := retry_from_sleeps op m b (m + 1) 0 (k - 1) d h
  simpa using this

/-- C3 counterexample to the claim as stated: with backoff 2 the delay slept
before retry attempt k = 1 of an always-failing operation is 1, whereas the
claimed formula `backoff ** k` demands `2 ^ 1 = 2`. -/
theorem retry_backoff_claim_false :
    (retry_operation always_failing_op 2 2).sleeps[0]? = some 1 ∧
    (1 : ℚ) ≠ (2 : ℚ) ^ (1 : ℕ) := by
  constructor
  · decide
  · norm_num

/-- C3 witness: the first sleep of a concrete run, settled through the
amended formula. -/
theorem retry_backoff_delay_witness :
    (retry_operation always_failing_op 2 2).sleeps[0]? = some 1 ∧
    (1 : ℚ) = (2 : ℚ) ^ (1 - 1 : ℕ) := by
  have hs : (retry_operation always_failing_op 2 2).sleeps[0]? = some 1 := by decide
  exact ⟨hs, retry_backoff_delay always_failing_op 2 1 2 1 le_rfl hs⟩

/-- C4: an operation failing on every invocation with `max_retries = m` is
invoked exactly `m + 1` times; exactly `m` `MEDIUM` ErrorRecords (one per
non-final failed attempt) and exactly one `HIGH` ErrorRecord are logged, and
the final failure is re-raised (result `none`), not swallowed. -/
theorem retry_always_fail_attempts {α : Type} (op : ℕ → Option α) (m : ℕ)
    (b : ℚ) (hop : ∀ j, op j = none) :
    (retry_operation op m b).attempts = m + 1 ∧
    (retry_operation op m b).logs.count ErrorSeverity.MEDIUM = m ∧
    (retry_operation op m b).logs.count ErrorSeverity.HIGH = 1 ∧
    (retry_operation op m b).result = none := by
  obtain ⟨h1, h2, h3⟩ :=
    retry_from_always_fails op hop m b (m + 1) 0 (by omega) (by omega)
  have e : retry_operation op m b = retry_from op m b 0 (m + 1) := rfl
  rw [e]
  refine ⟨by rw [h2]; omega, ?_, ?_, h1⟩
  · rw [h3]
    simp [List.count_append, List.count_replicate, List.count_cons]
  · rw [h3]
    simp [List.count_append, List.count_replicate, List.count_cons]

/-- C4 witness: with `max_retries = 2` the wrapper makes exactly 3 attempts,
logs 2 `MEDIUM` + 1 `HIGH`, and re-raises. -/
theorem retry_always_fail_attempts_witness :
    (retry_operation always_failing_op 2 2).attempts = 2 + 1 ∧
    (retry_operation always_failing_op 2 2).logs.count ErrorSeverity.MEDIUM = 2 ∧
    (retry_operation always_failing_op 2 2).logs.count ErrorSeverity.HIGH = 1 ∧
    (retry_operation always_failing_op 2 2).result = none :=
  retry_always_fail_attempts always_failing_op 2 2 (fun _ => rfl)

/-! ### Claim theorems: batch processing -/

lemma filter_length_split {α : Type} (p : α → Bool) (l : List α) :
    (l.filter p).length + (l.filter (fun a => ! p a)).length = l.length := by
  induction l with
  | nil => rfl
  | cons a l ih =>
    cases h : p a <;> simp [List.filter_cons, h] <;> omega

lemma process_records_go (now : String) :
    ∀ (rs : List RawRecord) (p e : ℕ),
      rs.foldl
        (fun acc r =>
          match process_energy_record_with_validation now r with
          | .ok _ => (acc.1 + 1, acc.2)
          | .error _ => (acc.1, acc.2 + 1))
        (p, e) =
      (p + (rs.filter (record_validates now)).length,
       e + (rs.filter (fun r => ! record_validates now r)).length) := by
  intro rs
  induction rs with
  | nil => intro p e; simp
  | cons r rs ih =>
    intro p e
    cases hval : process_energy_record_with_validation now r with
    | ok nr =>
      have hb : record_validates now r = true := by simp [record_validates, hval]
      simp only [List.foldl_cons, hval]
      rw [ih (p + 1) e]
      simp [List.filter_cons, hb]
      ring
    | error ex =>
      have hb : record_validates now r = false := by simp [record_validates, hval]
      simp only [List.foldl_cons, hval]
      rw [ih p (e + 1)]
      simp [List.filter_cons, hb]
      ring

/-- C5: the batch loop visits every record — the processed count is exactly
the number of records that validate, the failure count is exactly the number
that do not, and the two always sum to the batch size, so a failure on one
record never prevents later records from being processed (no all-or-nothing
abort). -/
theorem batch_processes_every_record (now : String) (rs : List RawRecord) :
    (process_records now rs).1 = (rs.filter (record_validates now)).length ∧
    (process_records now rs).2 =
      (rs.filter (fun r => ! record_validates now r)).length ∧
    (process_records now rs).1 + (process_records now rs).2 = rs.length := by
  have h := process_records_go now rs 0 0
  rw [process_records] at *
  rw [h]
  refine ⟨by simp, by simp, ?_⟩
  simp
  exact filter_length_split (record_validates now) rs

/-! ### Claim theorems: notifier and daily summary -/

/-- C9: `send_anomaly_alert` never propagates an exception — a failed
dispatch (`publish = none`) is caught and yields `none`; on success (both
energy fields of the record format without raising and the transport returns
a message id) the function returns exactly the transport's message id; and
in every case the result is `none` or that message id, never an escape. -/
theorem send_anomaly_alert_no_raise (publish : Option String) (r : AlertRecord) :
    (publish = none → send_anomaly_alert publish r = none) ∧
    (∀ id, publish = some id →
      (r.energy_generated_kwh.getD (RawValue.num 0)).toFloat.isSome = true →
      (r.energy_consumed_kwh.getD (RawValue.num 0)).toFloat.isSome = true →
      send_anomaly_alert publish r = some id) ∧
    (send_anomaly_alert publish r = none ∨
     ∃ id, publish = some id ∧ send_anomaly_alert publish r = some id) := by
  cases hgf : (r.energy_generated_kwh.getD (RawValue.num 0)).toFloat with
  | none =>
    refine ⟨fun _ => by simp [send_anomaly_alert, hgf],
      fun id hp hg hc => ?_,
      Or.inl (by simp [send_anomaly_alert, hgf])⟩
    simp at hg
  | some g =>
    cases hcf : (r.energy_consumed_kwh.getD (RawValue.num 0)).toFloat with
    | none =>
      refine ⟨fun _ => by simp [send_anomaly_alert, hgf, hcf],
        fun id hp hg hc => ?_,
        Or.inl (by simp [send_anomaly_alert, hgf, hcf])⟩
      simp at hc
    | some c =>
      cases publish with
      | none =>
        exact ⟨fun _ => by simp [send_anomaly_alert, hgf, hcf],
          fun id hp _ _ => by simp at hp,
          Or.inl (by simp [send_anomaly_alert, hgf, hcf])⟩
      | some pid =>
        refine ⟨fun hp => by simp at hp, fun id hp _ _ => ?_,
          Or.inr ⟨pid, rfl, by simp [send_anomaly_alert, hgf, hcf]⟩⟩
        injection hp with hid
        subst hid
        simp [send_anomaly_alert, hgf, hcf]

/-- C8: the daily summary computes
`anomaly_rate = total_anomalies / total_records * 100` when records exist and
0 otherwise, and assigns the health label by rate: `< 1` Excellent,
`1 ≤ rate < 5` Attention Needed, `≥ 5` Critical; a rate of exactly 1 falls in
the Attention Needed band. -/
theorem daily_summary_health_bands (ta tr : ℕ) (rate : ℚ) :
    (0 < tr → anomaly_rate ta tr = (ta : ℚ) / (tr : ℚ) * 100) ∧
    (anomaly_rate ta 0 = 0) ∧
    (rate < 1 → system_health rate = HealthLabel.Excellent) ∧
    (1 ≤ rate → rate < 5 → system_health rate = HealthLabel.AttentionNeeded) ∧
    (5 ≤ rate → system_health rate = HealthLabel.Critical) ∧
    (system_health 1 = HealthLabel.AttentionNeeded) := by
  refine ⟨fun h => by simp [anomaly_rate, h], by simp [anomaly_rate], ?_, ?_, ?_, ?_⟩
  · intro h
    simp [system_health, h]
  · intro h1 h5
    rw [system_health, if_neg (by linarith), if_pos h5]
  · intro h5
    rw [system_health, if_neg (by linarith), if_neg (by linarith)]
  · norm_num [system_health]

/-- C8 witness: the concrete rates of the spec examples. -/
theorem daily_summary_health_bands_witness :
    anomaly_rate 5 100 = (5 : ℚ) / (100 : ℚ) * 100 ∧
    system_health (1 / 2) = HealthLabel.Excellent ∧
    system_health 3 = HealthLabel.AttentionNeeded ∧
    system_health 7 = HealthLabel.Critical := by
  refine ⟨(daily_summary_health_bands 5 100 0).1 (by norm_num),
          (daily_summary_health_bands 0 0 (1 / 2)).2.2.1 (by norm_num),
          (daily_summary_health_bands 0 0 3).2.2.2.1 (by norm_num) (by norm_num),
          (daily_summary_health_bands 0 0 7).2.2.2.2.1 (by norm_num)⟩

/-! ### Concrete sample records for witnesses -/

/-- A raw record with both energies negative (doubly anomalous, in range). -/
def sample_anomalous_raw : RawRecord :=
  ⟨some "SITE_001", some "2025-06-08T00:00:00Z",
   some (RawValue.num (-5)), some (RawValue.num (-3))⟩

/-- The normalized record the pipeline produces for `sample_anomalous_raw`. -/
def sample_normalized : NormalizedRecord :=
  mk_processed_record "P" "SITE_001" "2025-06-08T00:00:00Z" (-5) (-3)

/-- A raw record whose generation value 10001 exceeds the upper range bound
without being negative. -/
def out_of_range_raw : RawRecord :=
  ⟨some "S", some "T", some (RawValue.num 10001), some (RawValue.num 0)⟩

/-- A raw record sitting exactly on both range boundaries. -/
def boundary_raw : RawRecord :=
  ⟨some "S", some "T", some (RawValue.num (-1000)), some (RawValue.num 10000)⟩

/-- A typical in-range raw record with fractional energies. -/
def typical_raw : RawRecord :=
  ⟨some "S", some "T", some (RawValue.num (201 / 2)), some (RawValue.num (121 / 4))⟩

/-- A raw record whose first missing required field is `timestamp` (the
energy-consumed field is missing too, but is reported second). -/
def missing_ts_raw : RawRecord :=
  ⟨some "S", none, some (RawValue.num 1), none⟩

/-- C1 witness: the doubly-negative record, accepted by the validator,
satisfies every conjunct of the anomaly classification. -/
theorem anomaly_classification_witness :
    (sample_normalized.anomaly = true ↔
      (sample_normalized.energy_generated_kwh < 0 ∨
       sample_normalized.energy_consumed_kwh < 0)) ∧
    ("negative_generation" ∈ sample_normalized.anomaly_reasons ↔
      sample_normalized.energy_generated_kwh < 0) ∧
    ("negative_consumption" ∈ sample_normalized.anomaly_reasons ↔
      sample_normalized.energy_consumed_kwh < 0) ∧
    (sample_normalized.energy_generated_kwh < 0 →
      sample_normalized.energy_consumed_kwh < 0 →
      sample_normalized.anomaly_reasons =
        ["negative_generation", "negative_consumption"]) ∧
    (sample_normalized.anomaly = true ↔
      0 < sample_normalized.anomaly_reasons.length) :=
  anomaly_classification "P" sample_anomalous_raw sample_normalized
    (Or.inl (by norm_num [process_energy_record_with_validation,
      sample_anomalous_raw, sample_normalized, RawValue.toFloat]))

/-- C2 witness: generation 10001 is rejected (naming field and value) even
though it is not negative, while the boundary values -1000 and 10000 are both
accepted. -/
theorem range_check_inclusive_witness :
    process_energy_record_with_validation "P" out_of_range_raw =
      Except.error (ValidationFailure.outOfRange "energy_generated_kwh" 10001) ∧
    process_energy_record_with_validation "P" boundary_raw =
      Except.ok (mk_processed_record "P" "S" "T" (-1000) 10000) :=
  ⟨(range_check_inclusive "P" "S" "T" (RawValue.num 10001) (RawValue.num 0)
      out_of_range_raw 10001 0 rfl rfl rfl).1 (by norm_num),
   (range_check_inclusive "P" "S" "T" (RawValue.num (-1000)) (RawValue.num 10000)
      boundary_raw (-1000) 10000 rfl rfl rfl).2.2.1 (by norm_num) (by norm_num)⟩

/-- C6 witness: a concrete in-range record, processed identically by both
variants, with exact net energy. -/
theorem net_energy_exact_witness :
    process_energy_record_with_validation "P" typical_raw =
      Except.ok (mk_processed_record "P" "S" "T" (201 / 2) (121 / 4)) ∧
    process_energy_record "P" typical_raw =
      some (mk_processed_record "P" "S" "T" (201 / 2) (121 / 4)) ∧
    (mk_processed_record "P" "S" "T" (201 / 2) (121 / 4)).net_energy_kwh =
      201 / 2 - 121 / 4 ∧
    (mk_processed_record "P" "S" "T" (201 / 2) (121 / 4)).energy_generated_kwh =
      201 / 2 ∧
    (mk_processed_record "P" "S" "T" (201 / 2) (121 / 4)).energy_consumed_kwh =
      121 / 4 :=
  net_energy_exact "P" "S" "T" (RawValue.num (201 / 2)) (RawValue.num (121 / 4))
    typical_raw (201 / 2) (121 / 4) rfl rfl rfl
    (by norm_num) (by norm_num) (by norm_num) (by norm_num)

/-- The test fixture of `anomaly_alerting.py`: a well-formed anomalous
record handed to `send_anomaly_alert`. -/
def sample_alert_record : AlertRecord :=
  ⟨some "SITE_001", some "2025-06-08T00:00:00Z", some (RawValue.num (-15)),
   some (RawValue.num 45), some ["negative_generation"]⟩

/-- C9 witness: on a well-formed record a failed dispatch returns `none` and
a successful dispatch returns the transport's message id. -/
theorem send_anomaly_alert_no_raise_witness :
    send_anomaly_alert none sample_alert_record = none ∧
    send_anomaly_alert (some "msg-001") sample_alert_record = some "msg-001" :=
  ⟨(send_anomaly_alert_no_raise none sample_alert_record).1 rfl,
   (send_anomaly_alert_no_raise (some "msg-001") sample_alert_record).2.1
     "msg-001" rfl rfl rfl⟩

/-- C7 witness: with `timestamp` and `energy_consumed_kwh` both absent, the
first missing field in the fixed order — `timestamp` — is the one reported. -/
theorem first_missing_field_reported_witness :
    process_energy_record_with_validation "P" missing_ts_raw =
      Except.error (ValidationFailure.missingField "timestamp") ∧
    (ValidationFailure.missingField "timestamp").error_type =
      ErrorType.DATA_VALIDATION :=
  first_missing_field_reported "P" missing_ts_raw "timestamp" (by decide)

end EnergyPipeline
